import Mathlib

/-!
Verification of the supercell-hackathon frontend client against its
natural-language specification.

The development shallowly embeds the client-side audio/event pipeline:

* the audio playback queue of
  `src/frontend/src/hooks/useTextToSpeech.js` (the queue-based hook:
  `queueAudio`, `processQueue`, `stopAudio`, `clearQueue`,
  `synthesizeSpeech` with per-NPC voice configurations);
* the user-gesture gate of
  `src/frontend/src/contexts/TextToSpeechContext.jsx`
  (`speakText`, the `pendingAudio` flush effect);
* the two websocket `onmessage` handlers
  (`src/frontend/src/hooks/useWebsocket.js` and
  `src/frontend/src/contexts/WebsocketContext.jsx`);
* the message-processing effect and restart handler of
  `src/frontend/src/components/UIOverlay.jsx`;
* the queue-manipulating call sites of the game controls component.

JavaScript asynchrony is modelled as a small-step event system: each
`async` continuation (synthesis resolution, `onended`, `onerror`,
`play()` rejection) is an explicit event, and a run is a fold of the
step function over an event list.  JS truthiness of the relevant field
types is modelled explicitly (`none`/empty string/zero are falsy).
-/

namespace SupercellClient

/-! ## Audio playback queue (useTextToSpeech.js, queue-based hook)

State of the hook: the `audioQueue` ref, the `processingQueue` ref, the
`audio` / `isPlaying` / `isLoading` / `error` React states.  Two ghost
logs instrument the model: `enqueuedLog` records every item accepted by
`queueAudio` in order, `dequeuedLog` records every item shifted out of
the queue by `processQueue` in order.  `consoleLog` records
`console.error` reports made by the queue machinery. -/

/-- One pending item of the audio queue: the pair pushed by
`queueAudio(text, npcId)`. -/
structure QItem where
  text : String
  npcId : String
deriving DecidableEq, Repr

/-- State of the `useTextToSpeech` hook (queue-based version). -/
structure TTSState where
  /-- `audioQueue.current` -/
  queue : List QItem
  /-- `processingQueue.current` -/
  processing : Bool
  /-- the item currently awaited inside `processQueue` by
  `await synthesizeSpeech(text, npcId)`, if any -/
  inFlight : Option QItem
  /-- the `audio` React state (the current audio element, identified by
  the item it was synthesized from) -/
  audio : Option QItem
  /-- the `isPlaying` React state -/
  isPlaying : Bool
  /-- the `isLoading` React state -/
  isLoading : Bool
  /-- the `error` React state -/
  error : Option String
  /-- ghost: items accepted by `queueAudio`, in order -/
  enqueuedLog : List QItem
  /-- ghost: items shifted out of the queue, in order -/
  dequeuedLog : List QItem
  /-- ghost: `console.error` reports emitted by the queue machinery -/
  consoleLog : List String
  /-- ghost: every non-null message passed to `setError`, in order (the
  `error` state itself is cleared again when the next synthesis starts) -/
  errorLog : List String
deriving DecidableEq, Repr

/-- Initial hook state: empty queue, nothing processing or playing. -/
def initTTS : TTSState :=
  { queue := [], processing := false, inFlight := none, audio := none,
    isPlaying := false, isLoading := false, error := none,
    enqueuedLog := [], dequeuedLog := [], consoleLog := [], errorLog := [] }

/-- JS truthiness of an optional string value: `undefined` and the empty
string are falsy. -/
def jsFalsyStr : Option String → Bool
  | none => true
  | some s => s.isEmpty

/-- One invocation of `processQueue` up to its first `await`
(useTextToSpeech.js lines 216-225): return immediately if
`processingQueue.current` is set or the queue is empty; otherwise set
the processing flag, shift the head item and start synthesizing it
(`synthesizeSpeech` begins with `setIsLoading(true); setError(null)`). -/
def tryProcess (st : TTSState) : TTSState :=
  if st.processing || st.queue.isEmpty then st
  else
    match st.queue with
    | [] => st
    | h :: t =>
      { st with processing := true, queue := t, inFlight := some h,
                isLoading := true, error := none,
                dequeuedLog := st.dequeuedLog ++ [h] }

/-- `queueAudio(text, npcId)` (useTextToSpeech.js lines 262-270):
`if (!text) return;` then push the item and call `processQueue`. -/
def queueAudio (text : Option String) (npcId : String) (st : TTSState) :
    TTSState :=
  if jsFalsyStr text then st
  else
    let item : QItem := { text := text.getD "", npcId := npcId }
    tryProcess { st with queue := st.queue ++ [item],
                         enqueuedLog := st.enqueuedLog ++ [item] }

/-- Resolution of the `await synthesizeSpeech(text, npcId)` inside
`processQueue` (useTextToSpeech.js lines 225-254).  On success
(`audioElement` non-null): `setAudio`, `setIsPlaying(true)`, install the
`onended`/`onerror` handlers and start playback.  On failure
(`synthesizeSpeech` caught an error, set the `error` state and returned
null): reset the processing flag and call `processQueue` again.
`synthesizeSpeech` itself ends with `setIsLoading(false)`. -/
def synthDone (ok : Bool) (st : TTSState) : TTSState :=
  match st.inFlight with
  | none => st
  | some i =>
      if ok then
        { st with inFlight := none, isLoading := false,
                  audio := some i, isPlaying := true }
      else
        tryProcess
          { st with inFlight := none, isLoading := false,
                    error := some "Failed to synthesize speech",
                    errorLog := st.errorLog ++ ["Failed to synthesize speech"],
                    processing := false }

/-- The `onended` handler of the current audio element
(useTextToSpeech.js lines 231-236): `setIsPlaying(false)`, reset the
processing flag, and re-run `processQueue` (after a 300 ms delay, which
the model elides). -/
def playbackEnded (st : TTSState) : TTSState :=
  if st.isPlaying then
    tryProcess { st with isPlaying := false, processing := false }
  else st

/-- The `onerror` handler of the current audio element
(useTextToSpeech.js lines 239-243): identical state change to
`onended` — `setIsPlaying(false)`, reset the processing flag, re-run
`processQueue`.  Note: this handler emits no report. -/
def playbackMediaError (st : TTSState) : TTSState :=
  playbackEnded st

/-- The rejection handler of `audioElement.play()`
(useTextToSpeech.js lines 245-250): `console.error`, then the same
state change as `onended`. -/
def playbackRejected (st : TTSState) : TTSState :=
  if st.isPlaying then
    tryProcess { st with isPlaying := false, processing := false,
                         consoleLog := st.consoleLog ++
                           ["Error playing audio:"] }
  else st

/-- `stopAudio` (useTextToSpeech.js lines 272-281): if an audio element
is set, pause it and `setIsPlaying(false)`; then unconditionally reset
the processing flag and `setAudio(null)`. -/
def stopAudio (st : TTSState) : TTSState :=
  let st1 := if st.audio.isSome then { st with isPlaying := false } else st
  { st1 with processing := false, audio := none }

/-- `clearQueue` (useTextToSpeech.js lines 283-285):
`audioQueue.current = [];` and nothing else. -/
def clearQueue (st : TTSState) : TTSState :=
  { st with queue := [] }

/-- External events driving the hook: a `queueAudio` call, the
resolution of an in-flight synthesis, the three playback-termination
callbacks, and the two explicit controls. -/
inductive Ev where
  | enq (text : Option String) (npcId : String)
  | synth (ok : Bool)
  | ended
  | mediaError
  | playRejected
  | stop
  | clear
deriving DecidableEq, Repr

/-- Step function: dispatch one event against the hook state. -/
def step (st : TTSState) : Ev → TTSState
  | .enq t n => queueAudio t n st
  | .synth ok => synthDone ok st
  | .ended => playbackEnded st
  | .mediaError => playbackMediaError st
  | .playRejected => playbackRejected st
  | .stop => stopAudio st
  | .clear => clearQueue st

/-- Run a list of events from the initial hook state. -/
def run (evs : List Ev) : TTSState :=
  evs.foldl step initTTS

/-- Events generated by a sequence of `queueAudio` calls and their
asynchronous continuations (no explicit stop/clear controls). -/
def isQueueEv : Ev → Bool
  | .stop => false
  | .clear => false
  | _ => true

/-- Playback-termination events: the current item's playback finished or
failed. -/
def isPlaybackEnd : Ev → Bool
  | .ended => true
  | .mediaError => true
  | .playRejected => true
  | _ => false

/-- The items currently in the synthesis-or-playback phase. -/
def busyItems (st : TTSState) : List QItem :=
  st.inFlight.toList ++ (if st.isPlaying then st.audio.toList else [])

/-- Queue invariant: the processing flag is set exactly while an item is
in synthesis or playback; synthesis and playback are mutually
exclusive; the enqueue log splits into the dequeue log followed by the
pending queue (FIFO); playback implies a current audio element. -/
def QInv (st : TTSState) : Prop :=
  (st.processing = true ↔ (st.inFlight.isSome = true ∨ st.isPlaying = true)) ∧
  ¬(st.inFlight.isSome = true ∧ st.isPlaying = true) ∧
  st.enqueuedLog = st.dequeuedLog ++ st.queue ∧
  (st.isPlaying = true → st.audio.isSome = true)

instance (st : TTSState) : Decidable (QInv st) := by
  unfold QInv; infer_instance

theorem qinv_init : QInv initTTS := by decide

theorem qinv_tryProcess {st : TTSState} (h : QInv st) : QInv (tryProcess st) := by
  obtain ⟨h1, h2, h3, h4⟩ := h
  unfold tryProcess
  by_cases hp : st.processing = true
  · simp [hp]
    exact ⟨h1, h2, h3, h4⟩
  · simp only [Bool.not_eq_true] at hp
    rcases hq : st.queue with _ | ⟨qh, qt⟩
    · simp [hp, hq]
      exact ⟨h1, h2, by simpa [hq] using h3, h4⟩
    · have hnf : st.inFlight.isSome = false := by
        by_contra hc
        simp only [Bool.not_eq_false] at hc
        have := h1.mpr (Or.inl hc)
        rw [hp] at this; exact Bool.false_ne_true this
      have hnp : st.isPlaying = false := by
        by_contra hc
        simp only [Bool.not_eq_false] at hc
        have := h1.mpr (Or.inr hc)
        rw [hp] at this; exact Bool.false_ne_true this
      simp [hp, hq, QInv, hnf, hnp]
      rw [h3, hq]

theorem qinv_queueAudio {st : TTSState} (t : Option String) (n : String)
    (h : QInv st) : QInv (queueAudio t n st) := by
  obtain ⟨h1, h2, h3, h4⟩ := h
  unfold queueAudio
  by_cases ht : jsFalsyStr t = true
  · simp [ht]; exact ⟨h1, h2, h3, h4⟩
  · simp only [ht, Bool.false_eq_true, if_false]
    apply qinv_tryProcess
    refine ⟨h1, h2, ?_, h4⟩
    simp [h3]

theorem qinv_synthDone {st : TTSState} (ok : Bool) (h : QInv st) :
    QInv (synthDone ok st) := by
  obtain ⟨h1, h2, h3, h4⟩ := h
  unfold synthDone
  rcases hf : st.inFlight with _ | i
  · exact ⟨h1, h2, h3, h4⟩
  · have hfp : st.inFlight.isSome = true := by rw [hf]; rfl
    have hnp : st.isPlaying = false := by
      by_contra hc
      simp only [Bool.not_eq_false] at hc
      exact h2 ⟨hfp, hc⟩
    rcases ok with _ | _
    · simp only []
      apply qinv_tryProcess
      exact ⟨by simp [hnp], by simp [hnp], h3, by simp [hnp]⟩
    · simp only []
      have hp : st.processing = true := h1.mpr (Or.inl hfp)
      exact ⟨by simp [hp], by simp, h3, by simp⟩

theorem qinv_playbackEnded {st : TTSState} (h : QInv st) :
    QInv (playbackEnded st) := by
  obtain ⟨h1, h2, h3, h4⟩ := h
  unfold playbackEnded
  by_cases hp : st.isPlaying = true
  · simp only [hp, if_true]
    apply qinv_tryProcess
    have hnf : st.inFlight.isSome = false := by
      by_contra hc
      simp only [Bool.not_eq_false] at hc
      exact h2 ⟨hc, hp⟩
    exact ⟨by simp [hnf], by simp [hnf], h3, by simp⟩
  · simp only [hp, if_false]
    exact ⟨h1, h2, h3, h4⟩

theorem qinv_playbackRejected {st : TTSState} (h : QInv st) :
    QInv (playbackRejected st) := by
  obtain ⟨h1, h2, h3, h4⟩ := h
  unfold playbackRejected
  by_cases hp : st.isPlaying = true
  · simp only [hp, if_true]
    apply qinv_tryProcess
    have hnf : st.inFlight.isSome = false := by
      by_contra hc
      simp only [Bool.not_eq_false] at hc
      exact h2 ⟨hc, hp⟩
    exact ⟨by simp [hnf], by simp [hnf], h3, by simp⟩
  · simp only [hp, if_false]
    exact ⟨h1, h2, h3, h4⟩

/-- The invariant is preserved by every queue-generated event. -/
theorem qinv_step {st : TTSState} {e : Ev} (h : QInv st)
    (he : isQueueEv e = true) : QInv (step st e) := by
  cases e with
  | enq t n => exact qinv_queueAudio t n h
  | synth ok => exact qinv_synthDone ok h
  | ended => exact qinv_playbackEnded h
  | mediaError => exact qinv_playbackEnded h
  | playRejected => exact qinv_playbackRejected h
  | stop => exact absurd he (by simp [isQueueEv])
  | clear => exact absurd he (by simp [isQueueEv])

theorem qinv_foldl :
    ∀ (evs : List Ev) (st : TTSState), QInv st → evs.all isQueueEv = true →
      QInv (evs.foldl step st) := by
  intro evs
  induction evs with
  | nil => intro st hst _; exact hst
  | cons e rest ih =>
    intro st hst h
    simp only [List.all_cons, Bool.and_eq_true] at h
    exact ih _ (qinv_step hst h.1) h.2

/-- The invariant holds after any run of queue-generated events. -/
theorem qinv_run (evs : List Ev) (h : evs.all isQueueEv = true) :
    QInv (run evs) := by
  rw [run]
  exact qinv_foldl evs initTTS qinv_init h

theorem tryProcess_isPlaying (st : TTSState) :
    (tryProcess st).isPlaying = st.isPlaying := by
  unfold tryProcess
  split
  · rfl
  · split <;> rfl

theorem tryProcess_processing_of_dequeue {st : TTSState}
    (h : (tryProcess st).dequeuedLog ≠ st.dequeuedLog) :
    st.processing = false := by
  by_contra hc
  simp only [Bool.not_eq_false] at hc
  apply h
  unfold tryProcess
  simp [hc]

/-- With the invariant, at most one item is ever in the
synthesis-or-playback phase. -/
theorem busy_le_one {st : TTSState} (h : QInv st) :
    (busyItems st).length ≤ 1 := by
  obtain ⟨h1, h2, h3, h4⟩ := h
  unfold busyItems
  rcases hf : st.inFlight with _ | i
  · rcases hp : st.isPlaying with _ | _
    · simp
    · rcases ha : st.audio with _ | a <;> simp
  · have hfp : st.inFlight.isSome = true := by rw [hf]; rfl
    have hnp : st.isPlaying = false := by
      by_contra hc
      simp only [Bool.not_eq_false] at hc
      exact h2 ⟨hfp, hc⟩
    simp [hnp]

/-- A dequeue (start of synthesis of the next item) can only happen in a
step after which nothing is playing, and if something was playing before
the step then the step is precisely the playback-termination event of
that item. -/
theorem dequeue_only_after_playback {st : TTSState} {e : Ev} (h : QInv st)
    (he : isQueueEv e = true)
    (hd : (step st e).dequeuedLog ≠ st.dequeuedLog) :
    (step st e).isPlaying = false ∧
    (st.isPlaying = true → isPlaybackEnd e = true) := by
  obtain ⟨h1, h2, h3, h4⟩ := h
  cases e with
  | enq t n =>
    simp only [step, queueAudio] at hd ⊢
    by_cases ht : jsFalsyStr t = true
    · simp [ht] at hd
    · simp only [ht, Bool.false_eq_true, if_false] at hd ⊢
      have hproc := tryProcess_processing_of_dequeue hd
      simp only [] at hproc
      have hnp : st.isPlaying = false := by
        by_contra hc
        simp only [Bool.not_eq_false] at hc
        have := h1.mpr (Or.inr hc)
        rw [hproc] at this
        exact Bool.false_ne_true this
      constructor
      · rw [tryProcess_isPlaying]
        exact hnp
      · intro hcontra; rw [hnp] at hcontra; exact absurd hcontra (by simp)
  | synth ok =>
    simp only [step, synthDone] at hd ⊢
    rcases hf : st.inFlight with _ | i
    · simp [hf] at hd
    · have hfp : st.inFlight.isSome = true := by rw [hf]; rfl
      have hnp : st.isPlaying = false := by
        by_contra hc
        simp only [Bool.not_eq_false] at hc
        exact h2 ⟨hfp, hc⟩
      rcases ok with _ | _
      · simp only [hf, Bool.false_eq_true, if_false] at hd ⊢
        constructor
        · rw [tryProcess_isPlaying]
          exact hnp
        · intro hcontra; rw [hnp] at hcontra; exact absurd hcontra (by simp)
      · simp [hf] at hd
  | ended =>
    simp only [step, playbackEnded] at hd ⊢
    rcases hp : st.isPlaying with _ | _
    · simp [hp] at hd
    · simp only [hp, if_true]
      refine ⟨?_, fun _ => rfl⟩
      rw [tryProcess_isPlaying]
  | mediaError =>
    simp only [step, playbackMediaError, playbackEnded] at hd ⊢
    rcases hp : st.isPlaying with _ | _
    · simp [hp] at hd
    · simp only [hp, if_true]
      refine ⟨?_, fun _ => rfl⟩
      rw [tryProcess_isPlaying]
  | playRejected =>
    simp only [step, playbackRejected] at hd ⊢
    rcases hp : st.isPlaying with _ | _
    · simp [hp] at hd
    · simp only [hp, if_true]
      refine ⟨?_, fun _ => rfl⟩
      rw [tryProcess_isPlaying]
  | stop => exact absurd he (by simp [isQueueEv])
  | clear => exact absurd he (by simp [isQueueEv])

/-- C1: the Audio Playback Queue serializes items strictly.  For every
sequence of `queueAudio` calls and their asynchronous continuations:
(a) the log of dequeued items followed by the pending queue is exactly
the log of enqueued items, so items are dequeued in exactly enqueue
order (FIFO); (b) at most one item is ever in the
synthesis-or-playback phase; (c) synthesis of the next item (a dequeue)
only happens in a step after which nothing is playing, and if playback
was ongoing before the step then that step is the playback-termination
event of the current item — the next synthesis never begins before the
current playback has finished. -/
theorem c1_queue_serialization (evs : List Ev)
    (h : evs.all isQueueEv = true) :
    (run evs).enqueuedLog = (run evs).dequeuedLog ++ (run evs).queue ∧
    (busyItems (run evs)).length ≤ 1 ∧
    (∀ e : Ev, isQueueEv e = true →
      (step (run evs) e).dequeuedLog ≠ (run evs).dequeuedLog →
      (step (run evs) e).isPlaying = false ∧
      ((run evs).isPlaying = true → isPlaybackEnd e = true)) := by
  have hinv := qinv_run evs h
  refine ⟨hinv.2.2.1, busy_le_one hinv, ?_⟩
  intro e he hd
  exact dequeue_only_after_playback hinv he hd

/-- Witness for C1 at a concrete event sequence: two dialog lines are
enqueued, the first is synthesized, played and ends, then the second is
synthesized and plays. -/
theorem c1_witness :
    ([Ev.enq (some "hello") "npc_sara", Ev.enq (some "leave") "npc_alex",
      Ev.synth true, Ev.ended, Ev.synth true].all isQueueEv = true) ∧
    ((run [Ev.enq (some "hello") "npc_sara",
           Ev.enq (some "leave") "npc_alex",
           Ev.synth true, Ev.ended, Ev.synth true]).enqueuedLog =
       (run [Ev.enq (some "hello") "npc_sara",
             Ev.enq (some "leave") "npc_alex",
             Ev.synth true, Ev.ended, Ev.synth true]).dequeuedLog ++
       (run [Ev.enq (some "hello") "npc_sara",
             Ev.enq (some "leave") "npc_alex",
             Ev.synth true, Ev.ended, Ev.synth true]).queue ∧
     (busyItems (run [Ev.enq (some "hello") "npc_sara",
                      Ev.enq (some "leave") "npc_alex",
                      Ev.synth true, Ev.ended, Ev.synth true])).length ≤ 1 ∧
     (∀ e : Ev, isQueueEv e = true →
       (step (run [Ev.enq (some "hello") "npc_sara",
                   Ev.enq (some "leave") "npc_alex",
                   Ev.synth true, Ev.ended, Ev.synth true]) e).dequeuedLog ≠
         (run [Ev.enq (some "hello") "npc_sara",
               Ev.enq (some "leave") "npc_alex",
               Ev.synth true, Ev.ended, Ev.synth true]).dequeuedLog →
       (step (run [Ev.enq (some "hello") "npc_sara",
                   Ev.enq (some "leave") "npc_alex",
                   Ev.synth true, Ev.ended, Ev.synth true]) e).isPlaying =
         false ∧
       ((run [Ev.enq (some "hello") "npc_sara",
              Ev.enq (some "leave") "npc_alex",
              Ev.synth true, Ev.ended, Ev.synth true]).isPlaying = true →
         isPlaybackEnd e = true))) :=
  ⟨by decide, c1_queue_serialization _ (by decide)⟩

/-- C3 counterexample: a playback error surfacing through the audio
element's `onerror` handler advances the queue but is reported nowhere —
no `setError` call and no `console.error` happen on that path, so the
"the error is reported" part of the claim fails.  Concretely: two items
are enqueued, the first is synthesized and playing, then its playback
fails via `onerror`; afterwards nothing has been reported and the second
item is already in synthesis. -/
theorem c3_counterexample :
    (run [Ev.enq (some "You cannot leave") "npc_cult_leader",
          Ev.enq (some "Sit down") "npc_cult_leader",
          Ev.synth true]).isPlaying = true ∧
    ¬ ((run [Ev.enq (some "You cannot leave") "npc_cult_leader",
             Ev.enq (some "Sit down") "npc_cult_leader",
             Ev.synth true, Ev.mediaError]).errorLog ≠ [] ∨
       (run [Ev.enq (some "You cannot leave") "npc_cult_leader",
             Ev.enq (some "Sit down") "npc_cult_leader",
             Ev.synth true, Ev.mediaError]).consoleLog ≠ []) ∧
    (run [Ev.enq (some "You cannot leave") "npc_cult_leader",
          Ev.enq (some "Sit down") "npc_cult_leader",
          Ev.synth true, Ev.mediaError]).inFlight =
      some { text := "Sit down", npcId := "npc_cult_leader" } := by
  decide

/-- C3 amended: a synthesis failure or playback error of one item is
non-fatal and the queue advances, with the remaining queued items
preserved; a synthesis failure is reported through the error state and a
`play()` rejection through the console log, but an error surfacing
through the `onerror` handler produces no report. -/
theorem c3_error_advances (st : TTSState) (hinv : QInv st) :
    (st.inFlight.isSome = true →
      ((step st (Ev.synth false)).errorLog =
         st.errorLog ++ ["Failed to synthesize speech"] ∧
       (step st (Ev.synth false)).queue = st.queue.tail ∧
       (step st (Ev.synth false)).inFlight = st.queue.head?)) ∧
    (st.isPlaying = true →
      ((step st Ev.playRejected).consoleLog =
         st.consoleLog ++ ["Error playing audio:"] ∧
       (step st Ev.playRejected).queue = st.queue.tail ∧
       (step st Ev.playRejected).inFlight = st.queue.head? ∧
       (step st Ev.playRejected).isPlaying = false)) ∧
    (st.isPlaying = true →
      ((step st Ev.mediaError).queue = st.queue.tail ∧
       (step st Ev.mediaError).inFlight = st.queue.head? ∧
       (step st Ev.mediaError).isPlaying = false)) := by
  obtain ⟨h1, h2, h3, h4⟩ := hinv
  refine ⟨?_, ?_, ?_⟩
  · intro hf
    rcases hfe : st.inFlight with _ | i
    · rw [hfe] at hf; exact absurd hf (by simp)
    · simp only [step, synthDone, hfe, Bool.false_eq_true, if_false]
      rcases hq : st.queue with _ | ⟨qh, qt⟩ <;>
        simp [tryProcess, hq]
  · intro hp
    have hnf : st.inFlight = none := by
      rcases hfe : st.inFlight with _ | i
      · rfl
      · exact absurd ⟨by rw [hfe]; rfl, hp⟩ h2
    simp only [step, playbackRejected, hp, if_true]
    rcases hq : st.queue with _ | ⟨qh, qt⟩ <;>
      simp [tryProcess, hq, hnf]
  · intro hp
    have hnf : st.inFlight = none := by
      rcases hfe : st.inFlight with _ | i
      · rfl
      · exact absurd ⟨by rw [hfe]; rfl, hp⟩ h2
    simp only [step, playbackMediaError, playbackEnded, hp, if_true]
    rcases hq : st.queue with _ | ⟨qh, qt⟩ <;>
      simp [tryProcess, hq, hnf]

/-- Witness for the amended C3 at a concrete state: one item is in
synthesis and two more are pending; a synthesis failure reports through
the error state and advances to the next pending item. -/
theorem c3_error_advances_witness :
    QInv (run [Ev.enq (some "a") "npc_sara", Ev.enq (some "b") "npc_sara",
               Ev.enq (some "c") "npc_sara"]) ∧
    ((run [Ev.enq (some "a") "npc_sara", Ev.enq (some "b") "npc_sara",
           Ev.enq (some "c") "npc_sara"]).inFlight.isSome = true →
      ((step (run [Ev.enq (some "a") "npc_sara", Ev.enq (some "b") "npc_sara",
                   Ev.enq (some "c") "npc_sara"]) (Ev.synth false)).errorLog =
         (run [Ev.enq (some "a") "npc_sara", Ev.enq (some "b") "npc_sara",
               Ev.enq (some "c") "npc_sara"]).errorLog ++
           ["Failed to synthesize speech"] ∧
       (step (run [Ev.enq (some "a") "npc_sara", Ev.enq (some "b") "npc_sara",
                   Ev.enq (some "c") "npc_sara"]) (Ev.synth false)).queue =
         (run [Ev.enq (some "a") "npc_sara", Ev.enq (some "b") "npc_sara",
               Ev.enq (some "c") "npc_sara"]).queue.tail ∧
       (step (run [Ev.enq (some "a") "npc_sara", Ev.enq (some "b") "npc_sara",
                   Ev.enq (some "c") "npc_sara"]) (Ev.synth false)).inFlight =
         (run [Ev.enq (some "a") "npc_sara", Ev.enq (some "b") "npc_sara",
               Ev.enq (some "c") "npc_sara"]).queue.head?)) :=
  ⟨by decide,
   (c3_error_advances (run [Ev.enq (some "a") "npc_sara",
                            Ev.enq (some "b") "npc_sara",
                            Ev.enq (some "c") "npc_sara"]) (by decide)).1⟩

/-! ## Queue-manipulating client code paths (UIOverlay.jsx, GameControls)

Each path is recorded as the sequence of queue operations its source
performs, together with the semantics of those operations on the hook
state. -/

/-- A queue-manipulating call: `stopAudio()` or `clearQueue()`. -/
inductive QOp where
  | stop
  | clear
deriving DecidableEq, Repr

/-- The `game_over` branch of the message-processing effect in
UIOverlay.jsx (lines 33-38): it calls `clearQueue()` and never
`stopAudio()`. -/
def gameOverPathOps : List QOp := [QOp.clear]

/-- `handleToggleRecording` in the GameControls component (lines 37-48):
`stopAudio(); clearQueue();`. -/
def toggleRecordingPathOps : List QOp := [QOp.stop, QOp.clear]

/-- The Stop Speech button handler in the GameControls component
(lines 68-78): `stopAudio(); clearQueue();`. -/
def stopSpeechPathOps : List QOp := [QOp.stop, QOp.clear]

/-- All client code paths that invoke `stopAudio`/`clearQueue`. -/
def clientQueuePaths : List (List QOp) :=
  [gameOverPathOps, toggleRecordingPathOps, stopSpeechPathOps]

/-- Semantics of one queue-manipulating call. -/
def applyQOp (st : TTSState) : QOp → TTSState
  | QOp.stop => stopAudio st
  | QOp.clear => clearQueue st

/-- Run a code path's queue operations in order. -/
def runPath (ops : List QOp) (st : TTSState) : TTSState :=
  ops.foldl applyQOp st

/-- C5 counterexample: the `game_over` branch of UIOverlay.jsx is a
client code path that invokes `clearQueue` without any `stopAudio`, so
"clearQueue is never invoked without a stopAudio" is false. -/
theorem c5_counterexample :
    gameOverPathOps ∈ clientQueuePaths ∧
    QOp.clear ∈ gameOverPathOps ∧
    QOp.stop ∉ gameOverPathOps := by
  decide

/-- C5 amended: in every client code path that manipulates the Audio
Playback Queue, an invocation of `stopAudio` is accompanied by
`clearQueue`; `clearQueue` however is invoked without `stopAudio` in
exactly one path, the game-over branch, which empties the pending queue
while leaving any in-progress playback running. -/
theorem c5_stop_clear_pairing :
    (∀ p ∈ clientQueuePaths, QOp.stop ∈ p → QOp.clear ∈ p) ∧
    QOp.clear ∈ gameOverPathOps ∧ QOp.stop ∉ gameOverPathOps ∧
    (∀ st : TTSState, (runPath gameOverPathOps st).queue = [] ∧
      (runPath gameOverPathOps st).isPlaying = st.isPlaying ∧
      (runPath gameOverPathOps st).audio = st.audio) := by
  refine ⟨by decide, by decide, by decide, ?_⟩
  intro st
  simp [runPath, gameOverPathOps, applyQOp, clearQueue]

/-- Witness for the amended C5: the pairing law applied to the
recording-toggle path, and the game-over path applied to the initial
state. -/
theorem c5_stop_clear_pairing_witness :
    QOp.clear ∈ toggleRecordingPathOps ∧
    (runPath gameOverPathOps initTTS).queue = [] :=
  ⟨c5_stop_clear_pairing.1 toggleRecordingPathOps (by decide) (by decide),
   (c5_stop_clear_pairing.2.2.2 initTTS).1⟩

/-- C9: `clearQueue` empties the pending queue and changes nothing
else — the current audio element, the playing flag, the loading flag,
the error state, the processing flag and any in-flight synthesis are
untouched, so in-progress playback is not interrupted. -/
theorem c9_clearQueue_frame (st : TTSState) :
    (clearQueue st).queue = [] ∧
    (clearQueue st).audio = st.audio ∧
    (clearQueue st).isPlaying = st.isPlaying ∧
    (clearQueue st).isLoading = st.isLoading ∧
    (clearQueue st).error = st.error ∧
    (clearQueue st).processing = st.processing ∧
    (clearQueue st).inFlight = st.inFlight ∧
    (clearQueue st).consoleLog = st.consoleLog ∧
    (clearQueue st).errorLog = st.errorLog := by
  simp [clearQueue]

/-- C10: `queueAudio` with an empty or missing text is a complete no-op:
the state — pending queue, playing/loading/error state, in-flight
synthesis, and all logs — is unchanged, so in particular no synthesis
request is initiated. -/
theorem c10_queueAudio_falsy_noop (t : Option String) (npcId : String)
    (st : TTSState) (h : jsFalsyStr t = true) :
    queueAudio t npcId st = st := by
  simp [queueAudio, h]

/-- Witness for C10 at concrete inputs: both a missing text and an empty
text leave the initial state untouched. -/
theorem c10_queueAudio_falsy_noop_witness :
    queueAudio none "npc_sara" initTTS = initTTS ∧
    queueAudio (some "") "npc_alex" initTTS = initTTS :=
  ⟨c10_queueAudio_falsy_noop none "npc_sara" initTTS (by decide),
   c10_queueAudio_falsy_noop (some "") "npc_alex" initTTS (by decide)⟩

/-! ## Websocket message handlers

Two `onmessage` handlers exist in the client sources: the hook at
src/frontend/src/hooks/useWebsocket.js (lines 18-42) and the context
provider at src/frontend/src/contexts/WebsocketContext.jsx
(lines 28-59).  Both are live: UIOverlay and GameControls use the
context provider, ChatBox imports the hook. -/

/-- One wire event as seen by the `onmessage` handlers after
`JSON.parse`.  Absent fields are `none`; `game_over` is sent as a
boolean flag. -/
structure WireMsg where
  dialog : Option String := none
  npc_id : Option String := none
  suspicion_level : Option Int := none
  game_over : Bool := false
  ending_type : Option String := none
  analysis : Option String := none
  achievement_unlocked : Option (List String) := none
deriving DecidableEq, Repr

/-- JS truthiness of an optional integer field: `undefined` and `0` are
falsy. -/
def jsTruthyInt : Option Int → Bool
  | none => false
  | some v => v != 0

/-- One entry of the client's `messages` state. -/
structure Entry where
  etype : String
  text : String := ""
  npc_id : String := ""
  suspicion_level : Int := 0
  ending_type : Option String := none
  analysis : Option String := none
  achievements : List String := []
  /-- the singular `achievement` object (its name) read by the
  UIOverlay banner branch; neither websocket handler ever sets it -/
  achievement : Option String := none
deriving DecidableEq, Repr

/-- The `onmessage` handler of the hook useWebsocket.js (lines 18-42):
a dialog entry is appended only when `data.dialog && data.npc_id &&
data.suspicion_level` are all truthy; otherwise the `game_over` and
`achievement_unlocked` branches are tried. -/
def hookOnMessage (msgs : List Entry) (d : WireMsg) : List Entry :=
  if !jsFalsyStr d.dialog && !jsFalsyStr d.npc_id &&
      jsTruthyInt d.suspicion_level then
    msgs ++ [{ etype := "dialog", text := d.dialog.getD "",
               npc_id := d.npc_id.getD "",
               suspicion_level := d.suspicion_level.getD 0 }]
  else if d.game_over then
    msgs ++ [{ etype := "game_over" }]
  else if d.achievement_unlocked.isSome then
    msgs ++ [{ etype := "achievement",
               achievements := d.achievement_unlocked.getD [] }]
  else msgs

/-- The `onmessage` handler of the context provider
WebsocketContext.jsx (lines 28-59): a dialog entry is appended whenever
`data.dialog` is truthy, with `npc_id` defaulting to "unknown" and
`suspicion_level` defaulting to 0 (nullish coalescing). -/
def contextOnMessage (msgs : List Entry) (d : WireMsg) : List Entry :=
  if !jsFalsyStr d.dialog then
    msgs ++ [{ etype := "dialog", text := d.dialog.getD "",
               npc_id := d.npc_id.getD "unknown",
               suspicion_level := d.suspicion_level.getD 0 }]
  else if d.game_over then
    msgs ++ [{ etype := "game_over", ending_type := d.ending_type,
               analysis := d.analysis }]
  else if d.achievement_unlocked.isSome then
    msgs ++ [{ etype := "achievement",
               achievements := d.achievement_unlocked.getD [] }]
  else msgs

/-- A wire event that is a dialog, game_over or achievement event (has
one of the three recognized payloads). -/
def qualifying (d : WireMsg) : Bool :=
  !jsFalsyStr d.dialog || d.game_over || d.achievement_unlocked.isSome

/-- The single entry the context handler produces for a qualifying
event, following its branch order. -/
def entryOfEvent (d : WireMsg) : Entry :=
  if !jsFalsyStr d.dialog then
    { etype := "dialog", text := d.dialog.getD "",
      npc_id := d.npc_id.getD "unknown",
      suspicion_level := d.suspicion_level.getD 0 }
  else if d.game_over then
    { etype := "game_over", ending_type := d.ending_type,
      analysis := d.analysis }
  else
    { etype := "achievement", achievements := d.achievement_unlocked.getD [] }

/-- A dialog event carrying `suspicion_level: 0` from the cult leader:
truthy dialog and npc_id, falsy suspicion level. -/
def zeroSuspicionDialog : WireMsg :=
  { dialog := some "The ritual begins", npc_id := some "npc_cult_leader",
    suspicion_level := some 0 }

/-- C4 counterexample: the hook handler in useWebsocket.js drops a
received dialog event whose suspicion_level is 0 (the JS truthiness
check `data.suspicion_level` fails on 0), appending no entry, while the
context handler appends exactly one.  So the claim — no received
dialog event is dropped, including those with suspicion_level 0 — is
false for the hook handler. -/
theorem c4_counterexample :
    qualifying zeroSuspicionDialog = true ∧
    hookOnMessage [] zeroSuspicionDialog = [] ∧
    contextOnMessage [] zeroSuspicionDialog =
      [{ etype := "dialog", text := "The ritual begins",
         npc_id := "npc_cult_leader", suspicion_level := 0 }] := by
  decide

/-- C4 amended: the context provider's handler appends exactly one entry
per received dialog, game_over, or achievement event, in exactly receipt
order, dropping, duplicating and reordering nothing — including dialog
events with suspicion_level 0; the hook handler in useWebsocket.js
additionally requires a truthy npc_id and a truthy (nonzero)
suspicion_level before appending a dialog entry and drops dialog events
failing that test. -/
theorem c4_context_appends_in_order (msgs : List Entry)
    (evs : List WireMsg) (h : evs.all qualifying = true) :
    evs.foldl contextOnMessage msgs = msgs ++ evs.map entryOfEvent := by
  induction evs generalizing msgs with
  | nil => simp
  | cons d rest ih =>
    simp only [List.all_cons, Bool.and_eq_true] at h
    rw [List.foldl_cons, ih _ h.2, List.map_cons]
    have hq := h.1
    unfold qualifying at hq
    unfold contextOnMessage entryOfEvent
    by_cases h1 : jsFalsyStr d.dialog = true
    · simp only [h1, Bool.not_true, Bool.false_eq_true, if_false]
      by_cases h2 : d.game_over = true
      · simp [h2]
      · simp only [Bool.not_eq_true] at h2
        have h3 : d.achievement_unlocked.isSome = true := by
          simp [h1, h2] at hq
          exact hq
        simp [h2, h3]
    · simp only [Bool.not_eq_true] at h1
      simp [h1]

/-- Witness for the amended C4: a dialog (with suspicion 0), a game_over
and an achievement event are appended as exactly three entries in
receipt order. -/
theorem c4_context_appends_in_order_witness :
    ([zeroSuspicionDialog,
      { game_over := true, ending_type := some "failure" : WireMsg },
      { achievement_unlocked := some ["Stayed Calm"] : WireMsg }].all
        qualifying = true) ∧
    [zeroSuspicionDialog,
     { game_over := true, ending_type := some "failure" : WireMsg },
     { achievement_unlocked := some ["Stayed Calm"] : WireMsg }].foldl
        contextOnMessage [] =
      [] ++ [zeroSuspicionDialog,
             { game_over := true, ending_type := some "failure" : WireMsg },
             { achievement_unlocked := some ["Stayed Calm"] : WireMsg }].map
              entryOfEvent :=
  ⟨by decide, c4_context_appends_in_order [] _ (by decide)⟩

/-! ## UIOverlay message processing (UIOverlay.jsx lines 24-65) -/

/-- JS `||` with a string default: empty string and `undefined` both
fall through to the default. -/
def jsOrStr (o : Option String) (d : String) : String :=
  match o with
  | none => d
  | some s => if s.isEmpty then d else s

/-- UI-visible state of the UIOverlay component, plus ghost records of
the calls it makes: `spoken` records `speakText(text, npc_id)` calls
(the audio enqueue), `clearQueueCalls` counts `clearQueue()` calls,
`toasts` records `toast.success(...)` banners. -/
structure UIState where
  messageProcessed : Nat
  gameOver : Bool
  endingType : Option String
  analysis : String
  spoken : List (String × String)
  clearQueueCalls : Nat
  toasts : List String
deriving DecidableEq, Repr

/-- Initial UIOverlay state. -/
def initUI : UIState :=
  { messageProcessed := 0, gameOver := false, endingType := none,
    analysis := "", spoken := [], clearQueueCalls := 0, toasts := [] }

/-- One iteration of the message-processing loop (UIOverlay.jsx lines
28-42): dialog entries are spoken, game_over entries clear the audio
queue and show the game-over modal, and entries of type
"achievement_unlocked" show a toast banner.  Note the latter tag: the
websocket handlers append achievement entries under the tag
"achievement", not "achievement_unlocked". -/
def processEntry (st : UIState) (m : Entry) : UIState :=
  let st1 :=
    if m.etype = "dialog" then
      { st with spoken := st.spoken ++ [(m.text, m.npc_id)] }
    else st
  let st2 :=
    if m.etype = "game_over" then
      { st1 with clearQueueCalls := st1.clearQueueCalls + 1,
                 gameOver := true,
                 endingType := some (jsOrStr m.ending_type "failure"),
                 analysis := jsOrStr m.analysis "" }
    else st1
  if m.etype = "achievement_unlocked" then
    { st2 with toasts := st2.toasts ++ [m.achievement.getD ""] }
  else st2

/-- One run of the message-processing effect (UIOverlay.jsx lines
24-45): if the message count changed, process every entry from index
`messageProcessed` on, then set `messageProcessed` to the new count. -/
def processMessages (msgs : List Entry) (st : UIState) : UIState :=
  if msgs.length = st.messageProcessed then st
  else
    { (msgs.drop st.messageProcessed).foldl processEntry st with
      messageProcessed := msgs.length }

/-- `handleRestart` (UIOverlay.jsx lines 47-65): reset the game-over
modal state and the receipt index; `clearMessages()` empties the
websocket message list alongside. -/
def handleRestart (st : UIState) : UIState :=
  { st with gameOver := false, endingType := none, analysis := "",
            messageProcessed := 0 }

/-- An achievement event as sent by the server. -/
def achievementWire : WireMsg :=
  { achievement_unlocked := some ["Stood Your Ground"] }

/-- C6, failing input: an achievement event received on the websocket.
The context handler appends it under the tag "achievement", but the
UIOverlay effect only shows a banner for entries tagged
"achievement_unlocked" (and reads a field the handlers never set), so
the event is marked processed — the receipt index advances — yet no
achievement banner is ever shown.  The code contradicts its own
consumer branch: the banner branch is dead against both producers. -/
theorem c6_achievement_banner_lost :
    (contextOnMessage [] achievementWire).map Entry.etype =
      ["achievement"] ∧
    hookOnMessage [] achievementWire = contextOnMessage [] achievementWire ∧
    (processMessages (contextOnMessage [] achievementWire) initUI).toasts
      = [] ∧
    (processMessages (contextOnMessage [] achievementWire)
      initUI).messageProcessed = 1 := by
  decide

/-! ## User-gesture gate (TextToSpeechContext.jsx)

The context provider synthesizes speech inside `speakText`; if the user
has not yet interacted, the resulting audio element is appended to
`pendingAudio`.  A flush effect plays pending elements once
`userInteracted` becomes true.  Audio elements are identified by their
creation index. -/

/-- State of the TextToSpeechProvider gate.  `started` records, in
order, the elements on which `play()` has been called; `endedList`
records the elements whose playback has finished. -/
structure GateState where
  userInteracted : Bool
  pending : List Nat
  started : List Nat
  endedList : List Nat
  nextId : Nat
deriving DecidableEq, Repr

/-- Initial provider state. -/
def initGate : GateState :=
  { userInteracted := false, pending := [], started := [], endedList := [],
    nextId := 0 }

/-- `speakText(text)` (TextToSpeechContext.jsx lines 53-72) with speech
enabled, nonempty text and successful synthesis: a fresh audio element
is created; if the user has interacted it is played at once, otherwise
it is appended to `pendingAudio` (held, not discarded). -/
def speakTextGate (st : GateState) : GateState :=
  if st.userInteracted then
    { st with started := st.started ++ [st.nextId], nextId := st.nextId + 1 }
  else
    { st with pending := st.pending ++ [st.nextId], nextId := st.nextId + 1 }

/-- The first qualifying user interaction (click, keydown or
touchstart; lines 19-34). -/
def interact (st : GateState) : GateState :=
  { st with userInteracted := true }

/-- One run of the pending-audio flush effect (lines 37-51): if the
user has interacted and pending audio exists,
`await pendingAudio[0].play()` — whose promise resolves when playback
STARTS, not when it ends — then drop the head from the pending list.
The effect re-runs on the state change and flushes the next element
without waiting for the previous one to finish. -/
def flushStep (st : GateState) : GateState :=
  if st.userInteracted then
    match st.pending with
    | [] => st
    | a :: rest => { st with started := st.started ++ [a], pending := rest }
  else st

/-- The browser signals that element `a` finished playing. -/
def audioEnded (a : Nat) (st : GateState) : GateState :=
  if st.started.contains a && !st.endedList.contains a then
    { st with endedList := st.endedList ++ [a] }
  else st

/-- The elements whose playback has started and not ended. -/
def nowPlaying (st : GateState) : List Nat :=
  st.started.filter (fun a => !st.endedList.contains a)

/-- C2 counterexample: two dialog texts are queued before any user
interaction; after the first interaction the flush effect starts the
second held element while the first is still playing (no
playback-finished event has occurred), so the two held items overlap —
refuting the "no two items overlapping" part of the claim. -/
theorem c2_counterexample :
    nowPlaying
      (flushStep (flushStep (interact (speakTextGate (speakTextGate
        initGate))))) = [0, 1] := by
  decide

theorem speaks_held (n : Nat) :
    speakTextGate^[n] initGate =
      { userInteracted := false, pending := List.range n, started := [],
        endedList := [], nextId := n } := by
  induction n with
  | zero => simp [initGate]
  | succ k ih =>
    rw [Function.iterate_succ_apply', ih]
    simp [speakTextGate, List.range_succ]

theorem flush_all (p : List Nat) :
    ∀ (s e : List Nat) (k : Nat),
      flushStep^[p.length]
        { userInteracted := true, pending := p, started := s,
          endedList := e, nextId := k } =
      { userInteracted := true, pending := [], started := s ++ p,
        endedList := e, nextId := k } := by
  induction p with
  | nil => intro s e k; simp
  | cons a rest ih =>
    intro s e k
    rw [List.length_cons, Function.iterate_succ_apply]
    simp only [flushStep, if_true]
    rw [ih]
    simp

/-- C2 amended: no item is dropped by the gesture gate — while ungated,
every spoken text is held on the pending list in original order with
nothing playing; after the first user interaction, the flush effect
starts every held item, in the original enqueue order.  (The claim's
"no two items overlapping" part fails: the flush awaits only the start
of each playback, see the counterexample.) -/
theorem c2_gate_holds_and_flushes (n : Nat) :
    (speakTextGate^[n] initGate).pending = List.range n ∧
    (speakTextGate^[n] initGate).started = [] ∧
    (flushStep^[n] (interact (speakTextGate^[n] initGate))).pending = [] ∧
    (flushStep^[n] (interact (speakTextGate^[n] initGate))).started =
      List.range n := by
  rw [speaks_held]
  refine ⟨rfl, rfl, ?_, ?_⟩
  · have h := flush_all (List.range n) [] [] n
    rw [List.length_range] at h
    simp only [interact]
    rw [h]
  · have h := flush_all (List.range n) [] [] n
    rw [List.length_range] at h
    simp only [interact]
    rw [h]
    simp

/-! ## Suspicion level (Session State Machine)

The repository sources contain only the frontend client; the backend
Session State Machine that owns `suspicion_level` is not under src/.
Its update rule is therefore modelled from the spec. -/

/-- Modelled from the spec: the backend Session State Machine is
missing from the sources; per spec section 4.1 the suspicion update
policy is `new_level = clamp(old_level + delta, 0, 10)`. -/
def suspicionUpdate (old delta : Int) : Int :=
  max 0 (min 10 (old + delta))

/-- Modelled from the spec: a session applies the delta of each of its
valid input events in sequence, each exactly once (a fold applies each
list element to the accumulator exactly once). -/
def runSuspicion (start : Int) (deltas : List Int) : Int :=
  deltas.foldl suspicionUpdate start

theorem suspicionUpdate_bounds (old delta : Int) :
    0 ≤ suspicionUpdate old delta ∧ suspicionUpdate old delta ≤ 10 := by
  unfold suspicionUpdate
  omega

/-- C7: starting from any suspicion level in [0,10], after every update
the level equals clamp(old + delta, 0, 10) — the fold applies each
delta exactly once — and the level always remains within [0,10]. -/
theorem c7_suspicion_clamped (start : Int) (h0 : 0 ≤ start)
    (h10 : start ≤ 10) :
    ∀ deltas : List Int,
      (0 ≤ runSuspicion start deltas ∧ runSuspicion start deltas ≤ 10) ∧
      ∀ d : Int, runSuspicion start (deltas ++ [d]) =
        suspicionUpdate (runSuspicion start deltas) d := by
  intro deltas
  constructor
  · induction deltas generalizing start with
    | nil => exact ⟨h0, h10⟩
    | cons d rest ih =>
      have hb := suspicionUpdate_bounds start d
      simpa [runSuspicion] using ih (suspicionUpdate start d) hb.1 hb.2
  · intro d
    simp [runSuspicion]

/-- Witness for C7 at the boundary scenario of the spec: from level 0,
three inputs with delta +4 stay within bounds and each update is the
clamp of the previous level plus the delta. -/
theorem c7_suspicion_clamped_witness :
    (0 : Int) ≤ 0 ∧ (0 : Int) ≤ 10 ∧
    ((0 ≤ runSuspicion 0 [4, 4, 4] ∧ runSuspicion 0 [4, 4, 4] ≤ 10) ∧
     ∀ d : Int, runSuspicion 0 ([4, 4, 4] ++ [d]) =
       suspicionUpdate (runSuspicion 0 [4, 4, 4]) d) :=
  ⟨by decide, by decide,
   c7_suspicion_clamped 0 (by decide) (by decide) [4, 4, 4]⟩

/-! ## Voice profile resolution (useTextToSpeech.js lines 111-214)

`synthesizeSpeech(text, npcId = 'default')` resolves the voice
configuration for the request from the `npcVoiceConfigs` map, falling
back to its `default` entry when the id is unmapped; the JS default
parameter makes an omitted id the string "default". -/

/-- The `audioConfig` part of a voice configuration. -/
structure AudioCfg where
  effectsProfileId : List String
  audioEncoding : String
  speakingRate : Option ℚ := none
  pitch : Option Int := none
deriving DecidableEq, Repr

/-- One NPC voice configuration. -/
structure VoiceCfg where
  languageCode : String
  name : String
  audioConfig : AudioCfg
deriving DecidableEq, Repr

/-- `npc_cult_leader` entry of `npcVoiceConfigs` (lines 113-122). -/
def cultLeaderVoice : VoiceCfg :=
  { languageCode := "en-US", name := "en-US-Chirp3-HD-Sadachbia",
    audioConfig :=
      { effectsProfileId := ["small-bluetooth-speaker-class-device"],
        audioEncoding := "LINEAR16", speakingRate := some (1 / 2),
        pitch := some (-15) } }

/-- `npc_sara` entry (lines 123-130). -/
def saraVoice : VoiceCfg :=
  { languageCode := "en-US", name := "en-US-Chirp3-HD-Kore",
    audioConfig :=
      { effectsProfileId := ["handset-class-device"],
        audioEncoding := "LINEAR16" } }

/-- `npc_elen` entry (lines 131-138). -/
def elenVoice : VoiceCfg :=
  { languageCode := "en-US", name := "en-US-Chirp3-HD-Callirrhoe",
    audioConfig :=
      { effectsProfileId := ["small-bluetooth-speaker-class-device"],
        audioEncoding := "LINEAR16" } }

/-- `npc_alex` entry (lines 139-146). -/
def alexVoice : VoiceCfg :=
  { languageCode := "en-US", name := "en-US-Chirp3-HD-Enceladus",
    audioConfig :=
      { effectsProfileId := ["small-bluetooth-speaker-class-device"],
        audioEncoding := "LINEAR16" } }

/-- `default` entry (lines 147-156), the documented default profile. -/
def defaultVoice : VoiceCfg :=
  { languageCode := "en-US", name := "en-US-Chirp3-HD-Sadachbia",
    audioConfig :=
      { effectsProfileId := ["small-bluetooth-speaker-class-device"],
        audioEncoding := "LINEAR16", speakingRate := some (1 / 2),
        pitch := some (-15) } }

/-- The `npcVoiceConfigs` map (lines 111-157). -/
def npcVoiceConfigs : List (String × VoiceCfg) :=
  [("npc_cult_leader", cultLeaderVoice), ("npc_sara", saraVoice),
   ("npc_elen", elenVoice), ("npc_alex", alexVoice),
   ("default", defaultVoice)]

/-- JS property lookup `npcVoiceConfigs[npcId]`. -/
def lookupVoice (npcId : String) : Option VoiceCfg :=
  (npcVoiceConfigs.find? (fun p => p.1 == npcId)).map Prod.snd

/-- Voice resolution of `synthesizeSpeech` (lines 159-173): the JS
default parameter turns an omitted id into "default";
`let voiceOptions = npcVoiceConfigs[npcId]; if (!voiceOptions)
voiceOptions = npcVoiceConfigs.default;`. -/
def resolveVoice (npcId : Option String) : VoiceCfg :=
  let ident := npcId.getD "default"
  (lookupVoice ident).getD defaultVoice

/-- The `voice` object of the synthesis request body (lines 186-194):
the resolved configuration's language code and voice name. -/
structure SynthRequestVoice where
  languageCode : String
  name : String
deriving DecidableEq, Repr

/-- The voice actually placed in the synthesis request for a speaker. -/
def synthRequestVoice (npcId : Option String) : SynthRequestVoice :=
  { languageCode := (resolveVoice npcId).languageCode,
    name := (resolveVoice npcId).name }

/-- C8: for every speaker id passed to `synthesizeSpeech`, the voice
configuration used for the synthesis request is the profile mapped to
that id when one exists, and the documented default profile whenever
the id is unmapped or omitted; the request's voice fields come from the
resolved profile. -/
theorem c8_voice_resolution (npcId : String) :
    (∀ cfg : VoiceCfg, lookupVoice npcId = some cfg →
      resolveVoice (some npcId) = cfg) ∧
    (lookupVoice npcId = none → resolveVoice (some npcId) = defaultVoice) ∧
    resolveVoice none = defaultVoice ∧
    synthRequestVoice (some npcId) =
      { languageCode := (resolveVoice (some npcId)).languageCode,
        name := (resolveVoice (some npcId)).name } := by
  refine ⟨?_, ?_, ?_, rfl⟩
  · intro cfg hcfg
    simp [resolveVoice, hcfg]
  · intro hnone
    simp [resolveVoice, hnone]
  · rfl

/-- Witness for C8: a mapped id resolves to its profile, an unmapped id
and an omitted id resolve to the default profile. -/
theorem c8_voice_resolution_witness :
    resolveVoice (some "npc_sara") = saraVoice ∧
    resolveVoice (some "npc_stranger") = defaultVoice ∧
    resolveVoice none = defaultVoice :=
  ⟨(c8_voice_resolution "npc_sara").1 saraVoice (by decide),
   (c8_voice_resolution "npc_stranger").2.1 (by decide),
   (c8_voice_resolution "npc_stranger").2.2.1⟩

end SupercellClient
